import Mathlib

/-!
Verification of the pure cell interior-mutability primitive
(src/src/lib.rs) against its specification.

The container `PureCell` stores one value in a slot whose automatic
destruction is suppressed (Rust: `UnsafeCell<ManuallyDrop<T>>`).  We model
the slot as `Option T`: `some v` is the Occupied state (a live value `v`),
`none` is the Transiently-empty state in which the value has been logically
moved out.  Operations that would be undefined behavior in the source
(reading or taking from a Transiently-empty slot) are modelled as producing
`none`.

The `pure_cell!` macro expands, per call site, into a pure core function
`const_fn` and a runtime wrapper `wrapper_fn`; both are modelled as
functions parameterized by the user-supplied body.  The body of the Rust
macro is a block that may mutate its local copy of the state and evaluates
to the output value; we model it as `body : T → A → R × T`, returning the
block value together with the final state, exactly the pair
`($block, $state)` computed inside `const_fn`.
-/

/-- The cell container: owns exactly one slot.  Rust:
`struct PureCell<T> \x7b value: UnsafeCell<ManuallyDrop<T>> \x7d`.
`some v` models a live (Occupied) `ManuallyDrop<T>`, `none` models the
logically moved-out (Transiently-empty) slot. -/
structure PureCell (T : Type) where
  value : Option T
  deriving DecidableEq, Repr

/-- Rust: `pub const fn new(value: T) -> Self` — constructs the container
in the Occupied state; always succeeds. -/
def PureCell.new {T : Type} (value : T) : PureCell T :=
  { value := some value }

/-- Rust: `pub fn get(&mut self) -> &mut T` — exclusive read of the slot.
The source returns a mutable view into the slot storage; reading it yields
the contained value when the slot is Occupied.  `none` models the
undefined-behavior case of reading a moved-out slot. -/
def PureCell.get {T : Type} (c : PureCell T) : Option T :=
  c.value

/-- Rust: `pub unsafe fn with<R, F>(&self, f: F) -> R` — runs `f` on a
mutable handle to the slot storage.  Mutation through the handle is
modelled by `f` returning the new slot contents alongside its result. -/
def PureCell.with {T R : Type} (c : PureCell T) (f : Option T → Option T × R) :
    PureCell T × R :=
  let (s, r) := f c.value
  ({ value := s }, r)

/-- Rust: `ManuallyDrop::take(state)` on the slot handle — moves the value
out, leaving the slot logically empty; the value read is `none` when the
slot was already moved out (undefined behavior in the source). -/
def ManuallyDrop.take {T : Type} (slot : Option T) : Option T × Option T :=
  (none, slot)

/-- The pure core function generated by `pure_cell!`:
`const fn const_fn(mut state, mut args) -> (T, R) \x7b
  let (output, state) = (block, state); (state, output) \x7d`.
`body` stands for the macro block: it returns the block value and the
final mutated state. -/
def const_fn {T A R : Type} (body : T → A → R × T) (state : T) (args : A) :
    T × R :=
  let (output, state) := body state args
  (state, output)

/-- The runtime wrapper generated by `pure_cell!`: takes the current value
out of the slot, invokes `const_fn` on it and the input, writes the new
state back, and returns the output.  Taking from an already-empty slot is
undefined behavior in the source, modelled here by the `none` branch. -/
def wrapper_fn {T A R : Type} (body : T → A → R × T) (state : Option T)
    (input : A) : Option T × Option R :=
  let (state, taken) := ManuallyDrop.take state
  match taken with
  | none => (state, none)
  | some v =>
    let (new, out) := const_fn body v input
    (some new, some out)

/-- The `pure_cell!` macro, explicit-output arm: expands `const_fn` and
`wrapper_fn` for the call site and runs
`pure_cell.with(move |state| wrapper_fn(state, input))`. -/
def pure_cell {T A R : Type} (c : PureCell T) (input : A)
    (body : T → A → R × T) : PureCell T × Option R :=
  c.with (fun state => wrapper_fn body state input)

/-- The `pure_cell!` macro, arm without a result-type annotation: the
source delegates to the explicit-output arm with the output type fixed to
the unit type (`-> ()`). -/
def pure_cell_unit {T A : Type} (c : PureCell T) (input : A)
    (body : T → A → Unit × T) : PureCell T × Option Unit :=
  pure_cell c input body

/-- Rust: `impl<T> Drop for PureCell<T>` — the destructor runs
`let _ = ManuallyDrop::take(&mut *self.value.get())`, which moves the
contained value out and drops it exactly once; the `ManuallyDrop` wrapper
has suppressed the automatic drop of the slot storage, so no second drop
of the value occurs.  This function counts how many times the destructor
of the contained value is triggered when the container is dropped: once
when the slot is Occupied, zero times when the value was already moved
out. -/
def PureCell.dropDestructorRuns {T : Type} (c : PureCell T) : Nat :=
  match c.value with
  | some _ => 1
  | none => 0

/-! ### Claim theorems -/

/-- Claim C1: for every stored state and input, an update whose body
mutates the state and also returns a computed output delivers exactly the
output of the body to the caller while the stored state reflects the
mutation; concretely, with stored state 15 and a body that increments the
state by 2 and returns the pre-increment value, the call returns 15 and a
subsequent exclusive read yields 17. -/
theorem C1_output_distinct_from_state :
    (∀ (T A R : Type) (s : T) (a : A) (body : T → A → R × T),
        (pure_cell (PureCell.new s) a body).2 = some (body s a).1 ∧
        (pure_cell (PureCell.new s) a body).1.get = some (body s a).2) ∧
    ((pure_cell (PureCell.new (15 : Nat)) () (fun s _ => (s, s + 2))).2
        = some 15 ∧
     (pure_cell (PureCell.new (15 : Nat)) () (fun s _ => (s, s + 2))).1.get
        = some 17) := by
  refine ⟨fun T A R s a body => ⟨rfl, rfl⟩, rfl, rfl⟩

/-- Claim C2: for every numeric starting state s0 and every input k, the
update protocol with input k and body `state += input` leaves the
container so that a subsequent exclusive read yields s0 + k. -/
theorem C2_state_threading : ∀ (s0 k : Nat),
    ((pure_cell_unit (PureCell.new s0) k
        (fun state input => ((), state + input))).1).get = some (s0 + k) := by
  intro s0 k
  rfl

/-- Claim C3: for every initial value v, one invocation of the update
protocol with a transformation returning its state unchanged and output
`()` leaves the exclusively-read value equal to v. -/
theorem C3_round_trip_identity : ∀ (T : Type) (v : T),
    ((pure_cell_unit (PureCell.new v) ()
        (fun state _ => ((), state))).1).get = some v := by
  intro T v
  rfl

/-- Claim C4: for every starting state and constants a and b, two updates
in sequence adding a and then b leave the container in the same state as
one update adding a + b. -/
theorem C4_sequential_updates_compose : ∀ (s a b : Nat),
    (pure_cell_unit
        (pure_cell_unit (PureCell.new s) a
          (fun state input => ((), state + input))).1 b
        (fun state input => ((), state + input))).1
      = (pure_cell_unit (PureCell.new s) (a + b)
          (fun state input => ((), state + input))).1 := by
  intro s a b
  simp [pure_cell_unit, pure_cell, PureCell.with, wrapper_fn, const_fn,
    ManuallyDrop.take, PureCell.new, Nat.add_assoc]

/-- Claim C5 counterexample: the macro arm without a result-type
annotation is not a no-input call shape — it still consumes its input
expression.  With stored state 15 and body `state += input`, invoking it
with input 5 and with input 0 leaves different stored states (20 and 15),
so its behavior is not that of any fixed unit-input invocation. -/
theorem C5_counterexample :
    ¬ ((pure_cell_unit (PureCell.new (15 : Nat)) (5 : Nat)
          (fun state input => ((), state + input))).1
        = (pure_cell_unit (PureCell.new (15 : Nat)) (0 : Nat)
          (fun state input => ((), state + input))).1) := by
  decide

/-- Claim C5 (amended): the call shape without a result-type annotation
behaves identically to the explicit-output call shape with the output
type fixed to the unit type: for every container state, input, and
transformation body, both produce the same resulting stored state and the
same returned output. -/
theorem C5_no_output_variant_equivalence :
    ∀ (T A : Type) (c : PureCell T) (input : A) (body : T → A → Unit × T),
      (pure_cell_unit c input body).1 = (pure_cell c input body).1 ∧
      (pure_cell_unit c input body).2 = (pure_cell c input body).2 := by
  intro T A c input body
  exact ⟨rfl, rfl⟩

/-- Claim C6: construction yields an Occupied slot, and for every update
call on an Occupied container (the transformation is a total function, so
it runs to completion, and the embedding has no reentrancy or
suspension), the slot is Occupied immediately before and immediately
after the call. -/
theorem C6_slot_occupied_invariant :
    (∀ (T : Type) (v : T), ((PureCell.new v).value).isSome) ∧
    (∀ (T A R : Type) (c : PureCell T) (input : A) (body : T → A → R × T),
        c.value.isSome →
        c.value.isSome ∧ ((pure_cell c input body).1.value).isSome) := by
  constructor
  · intro T v
    rfl
  · intro T A R c input body h
    refine ⟨h, ?_⟩
    rcases c with ⟨_ | v⟩
    · simp at h
    · rfl

/-- Witness for C6 at a concrete input: a container built from 15 is
Occupied, and after an update adding 2 it is still Occupied. -/
theorem C6_slot_occupied_invariant_witness :
    ((PureCell.new (15 : Nat)).value).isSome ∧
    ((pure_cell (PureCell.new (15 : Nat)) ()
        (fun s _ => (s, s + 2))).1.value).isSome :=
  ⟨C6_slot_occupied_invariant.1 Nat 15,
   (C6_slot_occupied_invariant.2 Nat Unit Nat (PureCell.new 15) ()
      (fun s _ => (s, s + 2)) (by decide)).2⟩

/-- Claim C7: constructing a container with a value and destroying it
without ever invoking the update protocol triggers destruction of the
contained value exactly once. -/
theorem C7_destruction_exactly_once : ∀ (T : Type) (v : T),
    (PureCell.new v).dropDestructorRuns = 1 := by
  intro T v
  rfl

/-- Claim C8: when the caller obligations are honored (the slot is
Occupied), every operation is total and infallible: construction always
succeeds and stores the value, exclusive read returns a value, and the
pure update returns an output. -/
theorem C8_total_infallible :
    (∀ (T : Type) (v : T), (PureCell.new v).value = some v) ∧
    (∀ (T : Type) (c : PureCell T), c.value.isSome → (c.get).isSome) ∧
    (∀ (T A R : Type) (c : PureCell T) (input : A) (body : T → A → R × T),
        c.value.isSome → ((pure_cell c input body).2).isSome) := by
  refine ⟨fun T v => rfl, fun T c h => h, ?_⟩
  intro T A R c input body h
  rcases c with ⟨_ | v⟩
  · simp at h
  · rfl

/-- Witness for C8 at a concrete input: with a container built from 15,
construction stores 15, exclusive read yields a value, and an update
returns an output. -/
theorem C8_total_infallible_witness :
    (PureCell.new (15 : Nat)).value = some 15 ∧
    ((PureCell.new (15 : Nat)).get).isSome ∧
    ((pure_cell (PureCell.new (15 : Nat)) ()
        (fun s _ => (s, s + 2))).2).isSome :=
  ⟨C8_total_infallible.1 Nat 15,
   C8_total_infallible.2.1 Nat (PureCell.new 15) (by decide),
   C8_total_infallible.2.2 Nat Unit Nat (PureCell.new 15) ()
      (fun s _ => (s, s + 2)) (by decide)⟩

/-- Claim C9: for every value v, construction followed by exclusive read
without an intervening update yields exactly v. -/
theorem C9_new_then_get_identity : ∀ (T : Type) (v : T),
    (PureCell.new v).get = some v := by
  intro T v
  rfl

/-- Claim C10: the update protocol is deterministic — two invocations of
the same transformation body on containers holding equal slot contents
with equal external inputs produce equal stored states and equal returned
outputs. -/
theorem C10_update_deterministic :
    ∀ (T A R : Type) (c1 c2 : PureCell T) (i1 i2 : A)
      (body : T → A → R × T),
      c1.value = c2.value → i1 = i2 →
      (pure_cell c1 i1 body).1.value = (pure_cell c2 i2 body).1.value ∧
      (pure_cell c1 i1 body).2 = (pure_cell c2 i2 body).2 := by
  intro T A R c1 c2 i1 i2 body hv hi
  rcases c1 with ⟨v1⟩
  rcases c2 with ⟨v2⟩
  simp only [PureCell.mk.injEq] at hv ⊢
  subst hv
  subst hi
  exact ⟨rfl, rfl⟩

/-- Witness for C10 at a concrete input: two containers both holding 15
with equal inputs 2 produce equal stored states and outputs under the
same body. -/
theorem C10_update_deterministic_witness :
    (pure_cell (PureCell.new (15 : Nat)) (2 : Nat)
        (fun s a => (s, s + a))).1.value
      = (pure_cell (PureCell.new (15 : Nat)) (2 : Nat)
        (fun s a => (s, s + a))).1.value ∧
    (pure_cell (PureCell.new (15 : Nat)) (2 : Nat)
        (fun s a => (s, s + a))).2
      = (pure_cell (PureCell.new (15 : Nat)) (2 : Nat)
        (fun s a => (s, s + a))).2 :=
  C10_update_deterministic Nat Nat Nat (PureCell.new 15) (PureCell.new 15)
    2 2 (fun s a => (s, s + a)) (by decide) (by decide)
